import Mathlib

/-!
# Verification of the API-key authentication and quota layer

Shallow embedding of the backend API-key subsystem
(`src/backend/utils/api_key_utils.py`, `src/backend/routes/api_keys.py`,
`src/backend/main.py` key-management endpoints) together with proofs of the
claims of the spec about it.

Conventions of the embedding:
* Python `dict`-shaped key records become the `KeyRecord` structure; a JSON
  field that may be absent becomes an `Option` field (`none` = key missing).
* Machine integers do not occur; SHA-256 32-bit words are `Nat` reduced with
  `% 2 ^ 32` at every operation that can overflow.
* Exception-raising code returns `Except PyError α`; the `PyError` constructors
  mirror `fastapi.HTTPException` (status, detail), `ValueError` and `NameError`.
* Wall-clock inputs (`datetime.utcnow()`, ISO parsing) are passed in as
  explicit parameters, so theorems quantify over them.
-/

namespace PlantSaathi

/-! ## CredentialCodec: `hashlib.sha256` over UTF-8 bytes, `secrets.token_hex`

`api_key_utils.generate_api_key` draws 24 random bytes (`secrets.token_hex(24)`)
and hashes the hex string with SHA-256 (`hashlib.sha256(key.encode())`).
The randomness source is modelled as an explicit `entropy` byte-list argument;
SHA-256 itself (FIPS 180-4) is embedded concretely so that every hash is
executable. Bytes are `Nat` values `< 256`; 32-bit words are `Nat` values
reduced mod `2 ^ 32`. -/

/-- Truncation to a 32-bit word. -/
def w32 (n : Nat) : Nat := n % 4294967296

/-- 32-bit right rotation. -/
def rotr (n x : Nat) : Nat := w32 ((x >>> n) ||| (x <<< (32 - n)))

/-- Bitwise complement within 32 bits. -/
def compl32 (x : Nat) : Nat := 4294967295 - x % 4294967296

/-- SHA-256 `Ch(x,y,z)`. -/
def shaCh (x y z : Nat) : Nat := (x &&& y) ^^^ (compl32 x &&& z)

/-- SHA-256 `Maj(x,y,z)`. -/
def shaMaj (x y z : Nat) : Nat := (x &&& y) ^^^ (x &&& z) ^^^ (y &&& z)

/-- SHA-256 `Σ₀`. -/
def bsig0 (x : Nat) : Nat := rotr 2 x ^^^ rotr 13 x ^^^ rotr 22 x

/-- SHA-256 `Σ₁`. -/
def bsig1 (x : Nat) : Nat := rotr 6 x ^^^ rotr 11 x ^^^ rotr 25 x

/-- SHA-256 `σ₀`. -/
def ssig0 (x : Nat) : Nat := rotr 7 x ^^^ rotr 18 x ^^^ (x >>> 3)

/-- SHA-256 `σ₁`. -/
def ssig1 (x : Nat) : Nat := rotr 17 x ^^^ rotr 19 x ^^^ (x >>> 10)

/-- The 64 SHA-256 round constants (fractional parts of the cube roots of the
first 64 primes). -/
def shaK : Array Nat := #[
  1116352408, 1899447441, 3049323471, 3921009573, 961987163, 1508970993,
  2453635748, 2870763221, 3624381080, 310598401, 607225278, 1426881987,
  1925078388, 2162078206, 2614888103, 3248222580, 3835390401, 4022224774,
  264347078, 604807628, 770255983, 1249150122, 1555081692, 1996064986,
  2554220882, 2821834349, 2952996808, 3210313671, 3336571891, 3584528711,
  113926993, 338241895, 666307205, 773529912, 1294757372, 1396182291,
  1695183700, 1986661051, 2177026350, 2456956037, 2730485921, 2820302411,
  3259730800, 3345764771, 3516065817, 3600352804, 4094571909, 275423344,
  430227734, 506948616, 659060556, 883997877, 958139571, 1322822218,
  1537002063, 1747873779, 1955562222, 2024104815, 2227730452, 2361852424,
  2428436474, 2756734187, 3204031479, 3329325298]

/-- The SHA-256 working state: eight 32-bit words. -/
structure Hash8 where
  a : Nat
  b : Nat
  c : Nat
  d : Nat
  e : Nat
  f : Nat
  g : Nat
  h : Nat
deriving DecidableEq, Repr

/-- The SHA-256 initial hash value (fractional parts of the square roots of the
first 8 primes). -/
def shaH0 : Hash8 :=
  ⟨1779033703, 3144134277, 1013904242, 2773480762,
   1359893119, 2600822924, 528734635, 1541459225⟩

/-- Big-endian 4-byte decomposition of a 32-bit word. -/
def be32 (wrd : Nat) : List Nat :=
  [wrd / 16777216 % 256, wrd / 65536 % 256, wrd / 256 % 256, wrd % 256]

/-- Big-endian 8-byte decomposition of a 64-bit length field. -/
def be64 (n : Nat) : List Nat :=
  [n / 72057594037927936 % 256, n / 281474976710656 % 256,
   n / 1099511627776 % 256, n / 4294967296 % 256,
   n / 16777216 % 256, n / 65536 % 256, n / 256 % 256, n % 256]

/-- A 64-byte block as sixteen big-endian 32-bit words. -/
def blockWords : List Nat → List Nat
  | b0 :: b1 :: b2 :: b3 :: rest =>
      (b0 * 16777216 + b1 * 65536 + b2 * 256 + b3) :: blockWords rest
  | _ => []

/-- Extend the sixteen block words to the 64-entry message schedule. -/
def msgSchedule (block : List Nat) : Array Nat :=
  (List.range 48).foldl
    (fun wrds j =>
      let t := j + 16
      wrds.push (w32 (ssig1 (wrds.getD (t - 2) 0) + wrds.getD (t - 7) 0 +
                      ssig0 (wrds.getD (t - 15) 0) + wrds.getD (t - 16) 0)))
    ⟨blockWords block⟩

/-- One SHA-256 compression round; `kw` is `K[t] + W[t]`. -/
def shaRound (kw : Nat) (s : Hash8) : Hash8 :=
  let t1 := w32 (s.h + bsig1 s.e + shaCh s.e s.f s.g + kw)
  let t2 := w32 (bsig0 s.a + shaMaj s.a s.b s.c)
  ⟨w32 (t1 + t2), s.a, s.b, s.c, w32 (s.d + t1), s.e, s.f, s.g⟩

/-- Compress one 64-byte block into the running hash value. -/
def shaCompress (hv : Hash8) (block : List Nat) : Hash8 :=
  let wrds := msgSchedule block
  let s := (List.range 64).foldl
    (fun s t => shaRound (w32 (shaK.getD t 0 + wrds.getD t 0)) s) hv
  ⟨w32 (hv.a + s.a), w32 (hv.b + s.b), w32 (hv.c + s.c), w32 (hv.d + s.d),
   w32 (hv.e + s.e), w32 (hv.f + s.f), w32 (hv.g + s.g), w32 (hv.h + s.h)⟩

/-- Fold the compression over the first `n` 64-byte blocks of the message. -/
def shaBlocksN : Nat → Hash8 → List Nat → Hash8
  | 0, hv, _ => hv
  | n + 1, hv, msg => shaBlocksN n (shaCompress hv (msg.take 64)) (msg.drop 64)

/-- Split a padded message (whose length is a multiple of 64) into 64-byte
blocks and fold the compression. -/
def shaBlocks (hv : Hash8) (msg : List Nat) : Hash8 :=
  shaBlocksN (msg.length / 64) hv msg

/-- SHA-256 padding: `0x80`, zeros to 56 mod 64, then the 64-bit bit length. -/
def shaPad (msg : List Nat) : List Nat :=
  msg ++ 128 :: List.replicate ((120 - (msg.length + 1) % 64) % 64) 0 ++
    be64 (8 * msg.length)

/-- The 32 digest bytes of a final hash value, big-endian per word. -/
def digestBytes (hv : Hash8) : List Nat :=
  be32 hv.a ++ be32 hv.b ++ be32 hv.c ++ be32 hv.d ++
  be32 hv.e ++ be32 hv.f ++ be32 hv.g ++ be32 hv.h

/-- SHA-256 of a byte list. -/
def sha256 (msg : List Nat) : List Nat :=
  digestBytes (shaBlocks shaH0 (shaPad msg))

/-- UTF-8 encoding of one Unicode code point (Python `str.encode()`). -/
def utf8Char (n : Nat) : List Nat :=
  if n < 128 then [n]
  else if n < 2048 then [192 + n / 64, 128 + n % 64]
  else if n < 65536 then [224 + n / 4096, 128 + n / 64 % 64, 128 + n % 64]
  else [240 + n / 262144, 128 + n / 4096 % 64, 128 + n / 64 % 64, 128 + n % 64]

/-- UTF-8 bytes of a string (Python `key.encode()`). -/
def utf8Bytes (s : String) : List Nat :=
  s.data.foldr (fun c acc => utf8Char c.toNat ++ acc) []

/-- Lowercase hex digit character. -/
def hexDigitChar (n : Nat) : Char :=
  if n < 10 then Char.ofNat (48 + n) else Char.ofNat (87 + n)

/-- Two lowercase hex digits of one byte. -/
def byteToHex (b : Nat) : String :=
  ⟨[hexDigitChar (b / 16), hexDigitChar (b % 16)]⟩

/-- Lowercase hex of a byte list (`hexdigest()` / `secrets.token_hex`). -/
def bytesToHex (bs : List Nat) : String :=
  bs.foldr (fun b acc => byteToHex b ++ acc) ""

/-- `hash_api_key` (api_key_utils.py line 55): SHA-256 hex digest of the
UTF-8 bytes of the key. -/
def hash_api_key (key : String) : String :=
  bytesToHex (sha256 (utf8Bytes key))

/-- `generate_api_key` (api_key_utils.py line 50): `secrets.token_hex(24)`
hex-encodes 24 random bytes — modelled by the explicit `entropy` argument —
and the pair `(key, sha256-hex of key)` is returned. -/
def generate_api_key (entropy : List Nat) : String × String :=
  let key := bytesToHex entropy
  (key, hash_api_key key)

/-! ## Data model

A stored key record is a JSON object inside the `api-keys.json` blob. A field
that the code may find absent is an `Option` field (`none` = key not present);
`created_at` keeps the dynamic JSON type `PyVal` because `get_api_keys`
branches on its runtime type and truthiness. -/

/-- A dynamically typed JSON scalar, as Python sees it. -/
inductive PyVal where
  | none
  | bool (b : Bool)
  | int (n : Int)
  | str (s : String)
deriving DecidableEq, Repr

/-- Python truthiness of a `PyVal` (`if not value:`). -/
def PyVal.truthy : PyVal → Bool
  | .none => false
  | .bool b => b
  | .int n => decide (n ≠ 0)
  | .str s => decide (s ≠ "")

/-- Decimal digits of a natural number, with an explicit fuel so the kernel can
reduce it; `natStr n.succ n` never exhausts the fuel. -/
def natStrAux : Nat → Nat → String
  | 0, _ => ""
  | fuel + 1, n =>
      if n < 10 then ⟨[hexDigitChar n]⟩
      else natStrAux fuel (n / 10) ++ ⟨[hexDigitChar (n % 10)]⟩

/-- Decimal rendering of a natural number. -/
def natStr (n : Nat) : String := natStrAux (n + 1) n

/-- Python `str(value)` for a JSON scalar. -/
def PyVal.pyStr : PyVal → String
  | .none => "None"
  | .bool true => "True"
  | .bool false => "False"
  | .int n => if n < 0 then "-" ++ natStr n.natAbs else natStr n.toNat
  | .str s => s

/-- Usage bucket of one day: `{"count": _, "last_used": _}`. -/
structure UsageEntry where
  count : Int
  last_used : Option String
deriving DecidableEq, Repr

/-- A stored key record (one JSON object of `api-keys.json`). `Option` fields
model JSON keys the code may find absent. -/
structure KeyRecord where
  id : String
  company_name : String
  api_key_hash : String
  created_at : PyVal
  revoked : Bool
  revoked_at : Option String
  last_used_at : Option String
  permissions : List String
  quota_per_day : Option Int
  daily_usage : Option (List (String × UsageEntry))
  expires_at : Option String
deriving DecidableEq, Repr

/-- `DEFAULT_QUOTA_PER_DAY` (api_key_utils.py line 18). -/
def DEFAULT_QUOTA_PER_DAY : Int := 50

/-- A raised Python exception, as the HTTP layer classifies it. -/
inductive PyError where
  | http (status : Nat) (detail : String)
  | valueError (msg : String)
  | nameError (msg : String)
deriving DecidableEq, Repr

/-- Python dict assignment `d[k] = v` on an insertion-ordered dict: overwrite
the existing entry in place, else append. -/
def dictSet (k : String) (v : α) : List (String × α) → List (String × α)
  | [] => [(k, v)]
  | (k2, v2) :: rest =>
      if k2 = k then (k, v) :: rest else (k2, v2) :: dictSet k v rest

/-! ## KeyRegistryStore: the Cloudinary blob strategy

`download_api_keys_from_cloudinary` wraps the whole fetch in
`try/except Exception`: a raised error is logged and an **empty list** is
returned, and a non-200 response likewise yields `[]`. The remote interaction
is modelled by the `FetchOutcome` the network would produce. Uploads are
modelled by returning the list that would be serialized to the blob. -/

/-- What the Cloudinary fetch produced: an HTTP response (with the parsed JSON
body when the status is 200) or a raised exception (network, config, JSON
parse, ...). -/
inductive FetchOutcome where
  | response (status : Nat) (body : List KeyRecord)
  | exception (msg : String)
deriving DecidableEq, Repr

/-- `download_api_keys_from_cloudinary` (api_key_utils.py lines 58-77): body
of a 200 response; `[]` for any other status; `[]` when anything raises
(the `except Exception` branch logs and falls through to `return []`). -/
def download_api_keys_from_cloudinary : FetchOutcome → List KeyRecord
  | .response status body => if status = 200 then body else []
  | .exception _ => []

/-- `store_api_key` (api_key_utils.py lines 102-119): download the registry,
append a fresh record, upload. `newId` stands for `secrets.token_hex(8)` and
`now` for `datetime.utcnow().isoformat()`. Returns the new record and the
uploaded registry. -/
def store_api_key (fetch : FetchOutcome) (newId now : String)
    (company_name api_key_hash : String) (permissions : Option (List String))
    (quota_per_day : Option Int) (expires_at : Option String) :
    KeyRecord × List KeyRecord :=
  let api_keys := download_api_keys_from_cloudinary fetch
  let new_key : KeyRecord := {
    id := newId
    company_name := company_name
    api_key_hash := api_key_hash
    created_at := .str now
    revoked := false
    revoked_at := Option.none
    last_used_at := Option.none
    -- `permissions or []`: `None` and the falsy `[]` both give `[]`
    permissions := permissions.getD []
    -- `quota_per_day or DEFAULT_QUOTA_PER_DAY`: Python `or` replaces both
    -- `None` and the falsy integer `0` with the default
    quota_per_day := some (match quota_per_day with
      | some q => if q = 0 then DEFAULT_QUOTA_PER_DAY else q
      | Option.none => DEFAULT_QUOTA_PER_DAY)
    daily_usage := some []
    expires_at := expires_at }
  (new_key, api_keys ++ [new_key])

/-- The per-record normalization performed by the `get_api_keys` listing loop
(api_key_utils.py lines 123-131): default a missing `quota_per_day` to 50,
default a missing `daily_usage` to `{}`, and force `created_at` to a string —
a falsy value (missing, `None`, `""`, `0`, `False`) becomes `now`, a truthy
non-string becomes `str(value)`. -/
def normalizeKey (now : String) (key : KeyRecord) : KeyRecord :=
  let key := match key.quota_per_day with
    | Option.none => { key with quota_per_day := some DEFAULT_QUOTA_PER_DAY }
    | some _ => key
  let key := match key.daily_usage with
    | Option.none => { key with daily_usage := some [] }
    | some _ => key
  if key.created_at.truthy = false then { key with created_at := .str now }
  else match key.created_at with
    | .str _ => key
    | v => { key with created_at := .str v.pyStr }

/-- `get_api_keys` (api_key_utils.py lines 121-132): download the registry and
normalize each record in place. -/
def get_api_keys (fetch : FetchOutcome) (now : String) : List KeyRecord :=
  (download_api_keys_from_cloudinary fetch).map (normalizeKey now)

/-- The mutation performed by the `revoke_api_key` loop (api_key_utils.py
lines 137-140): set `revoked = True` on **every** record whose id matches
(the loop has no `break`). -/
def revoke_mark (key_id : String) (api_keys : List KeyRecord) : List KeyRecord :=
  api_keys.map fun k => if k.id = key_id then { k with revoked := true } else k

/-- `revoke_api_key` (api_key_utils.py lines 134-143): download, mark every
matching record revoked, and upload **only when a match was found**. The
second component is the registry passed to `upload_api_keys_to_cloudinary`
(`none` = no upload performed). `revoked_at` is never written. -/
def revoke_api_key (fetch : FetchOutcome) (key_id : String) :
    Bool × Option (List KeyRecord) :=
  let api_keys := download_api_keys_from_cloudinary fetch
  let found := api_keys.any fun k => k.id == key_id
  (found, if found then some (revoke_mark key_id api_keys) else Option.none)

/-- The mutation performed by the `update_quota` loop (api_key_utils.py lines
178-181): set `quota_per_day = new_quota` on every matching record, with no
validation of the value. -/
def quota_mark (key_id : String) (new_quota : Int) (api_keys : List KeyRecord) :
    List KeyRecord :=
  api_keys.map fun k =>
    if k.id = key_id then { k with quota_per_day := some new_quota } else k

/-- `update_quota` (api_key_utils.py lines 175-184): download, set the quota on
every matching record, upload only when found (`none` = no upload). -/
def update_quota (fetch : FetchOutcome) (key_id : String) (new_quota : Int) :
    Bool × Option (List KeyRecord) :=
  let api_keys := download_api_keys_from_cloudinary fetch
  let found := api_keys.any fun k => k.id == key_id
  (found, if found then some (quota_mark key_id new_quota api_keys) else Option.none)

/-- The `set_quota` route (routes/api_keys.py lines 43-51): 400 when the body
is missing `id` or `quota_per_day` (`if not key_id or quota is None` — note a
quota of `0` passes this check), 404 when `update_quota` finds no record,
success otherwise. Returns the uploaded registry on success. -/
def set_quota (fetch : FetchOutcome) (body_id : Option String)
    (body_quota : Option Int) : Except PyError Unit :=
  match body_id, body_quota with
  | some key_id, some quota =>
      if key_id = "" then .error (.http 400 "Missing id or quota_per_day")
      else if (update_quota fetch key_id quota).1 = false then
        .error (.http 404 "API key not found")
      else .ok ()
  | _, _ => .error (.http 400 "Missing id or quota_per_day")

/-- `find_active_api_key` (api_key_utils.py lines 145-147): the Firestore query
`where api_key_hash == h, where revoked == False, limit 1` — the first
non-revoked record with the given fingerprint, in store order. -/
def find_active_api_key (api_key_hash : String) (docs : List KeyRecord) :
    Option KeyRecord :=
  docs.find? fun k => k.api_key_hash == api_key_hash && !k.revoked

/-- `check_and_update_quota` (api_key_utils.py lines 159-173). Its first
statement evaluates `date.today()`, but the module imports only `datetime` and
`timezone` from `datetime` — the name `date` is unbound (as is `firestore`,
used further down), so every call raises `NameError` before reading or writing
any usage state; the quota comparison and increment below are unreachable. -/
def check_and_update_quota (_doc : α) : Except PyError (Bool × α) :=
  .error (.nameError "NameError: date is not defined")

/-- The `verify_api_key` middleware (auth/api_key_middleware.py): 401 on a
missing key, 403 when no active record matches the fingerprint, then the quota
gate — whose `check_and_update_quota` call raises `NameError` (unimported
`date`), which propagates out of the middleware. The 429 branch and the
`last_used_at` update are unreachable. -/
def verify_api_key (x_api_key : Option String) (docs : List KeyRecord) :
    Except PyError KeyRecord :=
  if (x_api_key.getD "") = "" then .error (.http 401 "Missing API Key")
  else
    let hashed := hash_api_key (x_api_key.getD "")
    match find_active_api_key hashed docs with
    | Option.none => .error (.http 403 "Invalid or revoked API key")
    | some doc =>
        match check_and_update_quota doc with
        | .error e => .error e
        | .ok (false, _) => .error (.http 429 "API quota exceeded for today")
        | .ok (true, doc2) => .ok doc2

/-! ## AuthGate: `track_and_get_api_key`

The request-time validation used by the `/predict` route. `parseIso` stands
for `datetime.fromisoformat` (`none` = it raises `ValueError`) and `now` for
`datetime.now(timezone.utc)`, both on an abstract integer timeline; `todayStr`
and `nowIso` stand for `datetime.utcnow().date().isoformat()` and
`datetime.utcnow().isoformat()`. -/

/-- The body of the expiry `try:` block (api_key_utils.py lines 208-212):
parse `expires_at` with `"Z"` rewritten to `"+00:00"` (a failure raises
`ValueError`), and raise a 403 `HTTPException` when now is past the parsed
instant. -/
def expiry_try (parseIso : String → Option Int) (now : Int)
    (expires_at : String) : Except PyError Unit :=
  match parseIso (expires_at.replace "Z" "+00:00") with
  | Option.none => .error (.valueError "Invalid isoformat string")
  | some dt => if dt < now then .error (.http 403 "API key has expired.")
               else .ok ()

/-- The whole expiry check (api_key_utils.py lines 206-214): skipped for a
falsy `expires_at`; otherwise the `try` body runs under `except Exception`,
which catches **both** the `ValueError` of a malformed timestamp **and the
403 `HTTPException` raised for an expired key** (the FastAPI `HTTPException`
is an `Exception`), logs, and falls through. -/
def expiry_block (parseIso : String → Option Int) (now : Int)
    (expires_at : Option String) : Except PyError Unit :=
  match expires_at with
  | Option.none => .ok ()
  | some e =>
      if e = "" then .ok ()
      else
        match expiry_try parseIso now e with
        | .error _ => .ok ()
        | .ok () => .ok ()

/-- The usage mutation (api_key_utils.py lines 225-233): default a missing
`daily_usage` to `{}`, create the bucket for today as `{"count": 0}` when absent,
then `count += 1`, `last_used = now`, `last_used_at = now`. -/
def update_usage (todayStr nowIso : String) (k : KeyRecord) : KeyRecord :=
  let du := k.daily_usage.getD []
  let du := match du.lookup todayStr with
    | Option.none => dictSet todayStr ⟨0, Option.none⟩ du
    | some _ => du
  let entry := (du.lookup todayStr).getD ⟨0, Option.none⟩
  let du := dictSet todayStr ⟨entry.count + 1, some nowIso⟩ du
  { k with daily_usage := some du, last_used_at := some nowIso }

/-- The `for key in api_keys` loop (api_key_utils.py lines 200-216): on the
**first** record whose hash matches, raise 403 if it is revoked, run the
(self-neutralizing) expiry block, and select it (`break`). Returns the list
split around the selected record, or `none` when nothing matched. -/
def track_find (parseIso : String → Option Int) (now : Int) (hashed : String) :
    List KeyRecord →
    Except PyError (Option (List KeyRecord × KeyRecord × List KeyRecord))
  | [] => .ok Option.none
  | k :: rest =>
      if k.api_key_hash = hashed then
        if k.revoked then .error (.http 403 "API key has been revoked.")
        else
          match expiry_block parseIso now k.expires_at with
          | .error e => .error e
          | .ok () => .ok (some ([], k, rest))
      else
        match track_find parseIso now hashed rest with
        | .error e => .error e
        | .ok Option.none => .ok Option.none
        | .ok (some (pre, sel, post)) => .ok (some (k :: pre, sel, post))

/-- `track_and_get_api_key` (api_key_utils.py lines 186-238): 401 on a falsy
key, download the registry, resolve the first hash match (403 if revoked; the
expiry check swallows its own rejection), 403 when nothing matches, increment
the usage for today on the selected record, upload the whole registry, and return
the record. The returned list is the uploaded registry. -/
def track_and_get_api_key (parseIso : String → Option Int) (now : Int)
    (todayStr nowIso : String) (api_key : Option String)
    (fetch : FetchOutcome) : Except PyError (KeyRecord × List KeyRecord) :=
  if (api_key.getD "") = "" then .error (.http 401 "Missing API Key")
  else
    let hashed := hash_api_key (api_key.getD "")
    let api_keys := download_api_keys_from_cloudinary fetch
    match track_find parseIso now hashed api_keys with
    | .error e => .error e
    | .ok Option.none => .error (.http 403 "Invalid API Key.")
    | .ok (some (pre, sel, post)) =>
        let sel := update_usage todayStr nowIso sel
        .ok (sel, pre ++ sel :: post)

/-! ## KeyLifecycleManager: the admin routes and the Firestore strategy -/

/-- The `create_api_key` route (routes/api_keys.py lines 25-29): generate a
credential, store its hash via `store_api_key` (quota left at the default),
and return the stored record, the uploaded registry, and the one-time raw key
echoed in the response. -/
def route_create_api_key (entropy : List Nat) (fetch : FetchOutcome)
    (newId now : String) (company_name : String)
    (permissions : Option (List String)) (expires_at : Option String) :
    (KeyRecord × List KeyRecord) × String :=
  let (key, hashed) := generate_api_key entropy
  let doc := store_api_key fetch newId now company_name hashed permissions
    Option.none expires_at
  (doc, key)

/-- A document of the Firestore `api_keys` collection managed by main.py.
The `key` field holds the credential **value itself**. -/
structure FirestoreKeyDoc where
  name : String
  key : String
  partner_id : String
  rate_limit_day : Int
  created_at : String
  is_active : Bool
  rate_limit_hour : Option Int
deriving DecidableEq, Repr

/-- main.py `create_api_key` (line 453): the document written by
`doc_ref.set(new_key)` — its `key` field is the raw credential
(`custom_key_value` when truthy, else `secrets.token_urlsafe(32)`, modelled by
`generated_token`); no hash is computed anywhere. -/
def main_create_api_key (name : String) (custom_key_value : Option String)
    (partner_id : String) (rate_limit_day : Int)
    (rate_limit_hour : Option Int) (generated_token now : String) :
    FirestoreKeyDoc :=
  { name := name
    key := match custom_key_value with
      | some s => if s = "" then generated_token else s
      | Option.none => generated_token
    partner_id := partner_id
    rate_limit_day := rate_limit_day
    created_at := now
    is_active := true
    rate_limit_hour := rate_limit_hour }

/-- main.py `regenerate_api_key` (line 650): `doc_ref.update({"key":
new_key_value})` — the `key` field of the stored document becomes the new raw
credential (`secrets.token_urlsafe(32)`), again unhashed. -/
def main_regenerate_api_key (doc : FirestoreKeyDoc) (new_key_value : String) :
    FirestoreKeyDoc :=
  { doc with key := new_key_value }

/-! ## Observables and concrete fixtures used by the claim theorems

The hex literals below are the SHA-256 fingerprints of the concrete raw
credentials `"raw1"`, `"raw2"`, `"raw6"`; each theorem that uses one also
forces the evaluation of `hash_api_key` on the raw key, so the match is
checked, not assumed. -/

/-- Whether a dynamic value is a non-empty string. -/
def isNonemptyStr : PyVal → Bool
  | .str s => decide (s ≠ "")
  | _ => false

/-- A representative stored record: active, quota 3, no usage yet. -/
def baseRec : KeyRecord :=
  { id := "k1"
    company_name := "AcmeCo"
    api_key_hash := "h"
    created_at := .str "2025-01-01T00:00:00"
    revoked := false
    revoked_at := Option.none
    last_used_at := Option.none
    permissions := []
    quota_per_day := some 3
    daily_usage := some []
    expires_at := Option.none }

/-- The record holding the fingerprint of the raw credential `"raw1"`. -/
def c1_rec : KeyRecord :=
  { baseRec with api_key_hash :=
      "e12a7d772d3f2bf92b7e959c88ad0467535d7d5a3a28ff0465b511fd8e4de6a4" }

/-- One AuthGate call with `"raw1"` on 2025-06-22 against a given registry. -/
def c1_step (reg : List KeyRecord) : Except PyError (KeyRecord × List KeyRecord) :=
  track_and_get_api_key (fun _ => Option.none) 0 "2025-06-22"
    "2025-06-22T10:00:00" (some "raw1") (.response 200 reg)

/-- The result of `n + 1` sequential AuthGate calls with `"raw1"`, each using
the registry uploaded by the previous call, starting from `[c1_rec]`. -/
def c1_after : Nat → Except PyError (KeyRecord × List KeyRecord)
  | 0 => c1_step [c1_rec]
  | n + 1 =>
      match c1_after n with
      | .ok (_, reg) => c1_step reg
      | .error e => .error e

/-- `c1_rec` with a usage count of `n` for 2025-06-22. -/
def c1_usage (n : Int) : KeyRecord :=
  { c1_rec with
    daily_usage := some [("2025-06-22", ⟨n, some "2025-06-22T10:00:00"⟩)]
    last_used_at := some "2025-06-22T10:00:00" }

/-- A record for `"raw2"` that expired years before the validation instant. -/
def c2_rec : KeyRecord :=
  { baseRec with
    api_key_hash :=
      "3bd9ca2d02b2b3eb8f609f101da9164500720d3dcb29bbdd87bbfccdad59f50a"
    expires_at := some "2020-01-01T00:00:00Z" }

/-- `c2_rec` after one (wrongly) accepted call on 2025-06-22. -/
def c2_usage : KeyRecord :=
  { c2_rec with
    daily_usage := some [("2025-06-22", ⟨1, some "2025-06-22T10:00:00"⟩)]
    last_used_at := some "2025-06-22T10:00:00" }

/-- A revoked record carrying the fingerprint of `"raw6"`. -/
def c6_revoked : KeyRecord :=
  { baseRec with
    id := "k6a"
    api_key_hash :=
      "738b9a6282e0ac6413c833e62516c5bdc8226bbb06071f8d168e8d02a20362b2"
    revoked := true }

/-- An active record with the same fingerprint as `c6_revoked`. -/
def c6_active : KeyRecord :=
  { baseRec with
    id := "k6b"
    api_key_hash :=
      "738b9a6282e0ac6413c833e62516c5bdc8226bbb06071f8d168e8d02a20362b2" }

/-- A revoked record whose fingerprint is written as the `hash_api_key` term
itself. -/
def c6w_revoked : KeyRecord :=
  { baseRec with
    api_key_hash := hash_api_key "raw6"
    revoked := true }

/-- An active record with the same symbolic fingerprint as `c6w_revoked`. -/
def c6w_active : KeyRecord :=
  { baseRec with api_key_hash := hash_api_key "raw6" }

/-- A stored record with `quota_per_day` and `daily_usage` absent and a
numeric (non-string) `created_at`. -/
def c9_rec : KeyRecord :=
  { baseRec with
    quota_per_day := Option.none
    daily_usage := Option.none
    created_at := .int 7 }

/-! ## Supporting lemmas -/

/-- String concatenation concatenates the character data. -/
theorem strData_append (s t : String) : (s ++ t).data = s.data ++ t.data := rfl

/-- Length of a string concatenation. -/
theorem strLength_append (s t : String) : (s ++ t).length = s.length + t.length :=
  show (s.data ++ t.data).length = s.data.length + t.data.length from
    List.length_append _ _

/-- One byte renders as two hex characters. -/
theorem byteToHex_length (b : Nat) : (byteToHex b).length = 2 := rfl

/-- Hex encoding doubles the length. -/
theorem bytesToHex_length (bs : List Nat) : (bytesToHex bs).length = 2 * bs.length := by
  induction bs with
  | nil => rfl
  | cons b rest ih =>
      show ((byteToHex b) ++ bytesToHex rest).length = 2 * (rest.length + 1)
      rw [strLength_append, byteToHex_length, ih]
      ring

/-- A SHA-256 digest is 32 bytes, whatever the final state. -/
theorem digestBytes_length (hv : Hash8) : (digestBytes hv).length = 32 := by
  simp [digestBytes, be32]

/-- SHA-256 always produces 32 bytes. -/
theorem sha256_length (msg : List Nat) : (sha256 msg).length = 32 :=
  digestBytes_length _

/-- The hex fingerprint of any key has 64 characters. -/
theorem hash_api_key_length (key : String) : (hash_api_key key).length = 64 := by
  rw [hash_api_key, bytesToHex_length, sha256_length]

/-! ## The claims -/

/-- C8: `hash_api_key` is deterministic — equal raw credentials always yield
equal fingerprints — and for every entropy input, the pair returned by
`generate_api_key` satisfies `fingerprint = hash_api_key raw` (SHA-256 over the
UTF-8 bytes of the hex-encoded raw key). -/
theorem hash_api_key_deterministic_generate_consistent :
    (∀ s t : String, s = t → hash_api_key s = hash_api_key t) ∧
    (∀ entropy : List Nat,
      (generate_api_key entropy).2 = hash_api_key (generate_api_key entropy).1) :=
  ⟨fun _ _ h => by rw [h], fun _ => rfl⟩

/-- Witness for C8 at the concrete raw string `"plant"` and entropy `[1,2,3]`. -/
theorem hash_api_key_deterministic_witness :
    ("plant" : String) = "plant" ∧
    hash_api_key "plant" = hash_api_key "plant" ∧
    (generate_api_key [1, 2, 3]).2 = hash_api_key (generate_api_key [1, 2, 3]).1 :=
  ⟨rfl, hash_api_key_deterministic_generate_consistent.1 "plant" "plant" rfl,
   hash_api_key_deterministic_generate_consistent.2 [1, 2, 3]⟩

/-- C3 counterexample: the Firestore-backed key management in main.py persists
the raw credential itself. The document written by `create_api_key` carries the
generated raw token verbatim in its `key` field (there is no hash field at
all), and `regenerate_api_key` overwrites that field with the new raw token. -/
theorem main_py_persists_raw_credential :
    (main_create_api_key "Acme" Option.none "partner-1" 100 Option.none
      "RAW-SECRET-TOKEN" "2025-01-01T00:00:00").key = "RAW-SECRET-TOKEN" ∧
    (main_regenerate_api_key
      (main_create_api_key "Acme" Option.none "partner-1" 100 Option.none
        "RAW-SECRET-TOKEN" "2025-01-01T00:00:00") "NEW-RAW-TOKEN").key =
      "NEW-RAW-TOKEN" :=
  ⟨rfl, rfl⟩

/-- C3 amended: the blob-backed strategy does keep raw credentials out of the
store — the record persisted by `store_api_key` for a key created through the
admin route carries the SHA-256 fingerprint of the raw credential, a value
distinct from the raw credential itself, and the uploaded registry is the old
one plus that record — but the Firestore-backed management in main.py persists
the raw value (see the counterexample). -/
theorem blob_store_persists_only_fingerprint (entropy : List Nat)
    (fetch : FetchOutcome) (newId now company : String)
    (perms : Option (List String)) (expires : Option String)
    (hlen : entropy.length = 24) :
    (route_create_api_key entropy fetch newId now company perms expires).1.1.api_key_hash =
      hash_api_key (route_create_api_key entropy fetch newId now company perms expires).2 ∧
    (route_create_api_key entropy fetch newId now company perms expires).1.1.api_key_hash ≠
      (route_create_api_key entropy fetch newId now company perms expires).2 ∧
    (route_create_api_key entropy fetch newId now company perms expires).1.2 =
      download_api_keys_from_cloudinary fetch ++
        [(route_create_api_key entropy fetch newId now company perms expires).1.1] := by
  refine ⟨rfl, fun h => ?_, rfl⟩
  have hl := congrArg String.length h
  rw [show (route_create_api_key entropy fetch newId now company perms expires).1.1.api_key_hash =
        hash_api_key (bytesToHex entropy) from rfl] at hl
  rw [show (route_create_api_key entropy fetch newId now company perms expires).2 =
        bytesToHex entropy from rfl] at hl
  rw [hash_api_key_length, bytesToHex_length, hlen] at hl
  omega

/-- Witness for C3 at 24 zero bytes of entropy and an empty registry. -/
theorem blob_store_persists_only_fingerprint_witness :
    (List.replicate 24 0).length = 24 ∧
    ((route_create_api_key (List.replicate 24 0) (.response 200 []) "id1"
        "2025-01-01T00:00:00" "Acme" Option.none Option.none).1.1.api_key_hash =
      hash_api_key (route_create_api_key (List.replicate 24 0) (.response 200 [])
        "id1" "2025-01-01T00:00:00" "Acme" Option.none Option.none).2 ∧
    (route_create_api_key (List.replicate 24 0) (.response 200 []) "id1"
        "2025-01-01T00:00:00" "Acme" Option.none Option.none).1.1.api_key_hash ≠
      (route_create_api_key (List.replicate 24 0) (.response 200 []) "id1"
        "2025-01-01T00:00:00" "Acme" Option.none Option.none).2 ∧
    (route_create_api_key (List.replicate 24 0) (.response 200 []) "id1"
        "2025-01-01T00:00:00" "Acme" Option.none Option.none).1.2 =
      download_api_keys_from_cloudinary (.response 200 []) ++
        [(route_create_api_key (List.replicate 24 0) (.response 200 []) "id1"
          "2025-01-01T00:00:00" "Acme" Option.none Option.none).1.1]) :=
  ⟨by simp,
   blob_store_persists_only_fingerprint (List.replicate 24 0) (.response 200 [])
     "id1" "2025-01-01T00:00:00" "Acme" Option.none Option.none (by simp)⟩

/-- C4 counterexample: a failed fetch does **not** surface as a distinct
store-unavailable outcome. `download_api_keys_from_cloudinary` returns the very
same empty registry for a raised exception as for a successfully downloaded
empty store, and AuthGate then rejects a presented key with the ordinary
403 "Invalid API Key." rather than any 503-equivalent. -/
theorem store_failure_looks_like_empty_registry :
    download_api_keys_from_cloudinary (.exception "Connection timed out") =
      download_api_keys_from_cloudinary (.response 200 []) ∧
    track_and_get_api_key (fun _ => Option.none) 0 "2025-06-22"
      "2025-06-22T10:00:00" (some "raw1") (.exception "Connection timed out") =
      .error (.http 403 "Invalid API Key.") :=
  ⟨rfl, rfl⟩

/-- C4 amended: when the backing store cannot be reached (any exception, or any
non-200 response), registry loading yields the empty list — indistinguishable
from an empty registry — and AuthGate consequently fails closed with
403 "Invalid API Key." for every presented credential, not with any distinct
store-unavailable (503) outcome. -/
theorem store_failure_yields_empty_and_403 (msg : String) (status : Nat)
    (body : List KeyRecord) (parseIso : String → Option Int) (now : Int)
    (todayStr nowIso key : String) (hkey : key ≠ "") (hstatus : status ≠ 200) :
    download_api_keys_from_cloudinary (.exception msg) = [] ∧
    download_api_keys_from_cloudinary (.response status body) = [] ∧
    track_and_get_api_key parseIso now todayStr nowIso (some key)
      (.exception msg) = .error (.http 403 "Invalid API Key.") := by
  refine ⟨rfl, ?_, ?_⟩
  · simp [download_api_keys_from_cloudinary, hstatus]
  · unfold track_and_get_api_key
    simp [Option.getD, hkey, download_api_keys_from_cloudinary, track_find]

/-- Witness for C4 at a concrete timeout message, status 500, and key "k". -/
theorem store_failure_yields_empty_and_403_witness :
    ("k" : String) ≠ "" ∧ (500 : Nat) ≠ 200 ∧
    (download_api_keys_from_cloudinary (.exception "boom") = [] ∧
     download_api_keys_from_cloudinary (.response 500 []) = [] ∧
     track_and_get_api_key (fun _ => Option.none) 0 "2025-06-22"
       "2025-06-22T10:00:00" (some "k") (.exception "boom") =
       .error (.http 403 "Invalid API Key.")) :=
  ⟨by decide, by decide,
   store_failure_yields_empty_and_403 "boom" 500 [] (fun _ => Option.none) 0
     "2025-06-22" "2025-06-22T10:00:00" "k" (by decide) (by decide)⟩

/-- The revocation loop leaves every `revoked_at` untouched. -/
theorem revoke_mark_revoked_at (key_id : String) (reg : List KeyRecord) :
    (revoke_mark key_id reg).map (fun k => k.revoked_at) =
      reg.map (fun k => k.revoked_at) := by
  induction reg with
  | nil => rfl
  | cons k rest ih =>
      simp only [revoke_mark, List.map_cons] at ih ⊢
      rw [ih]
      by_cases h : k.id = key_id <;> simp [h]

/-- The revocation loop sets `revoked` on exactly the matching records. -/
theorem revoke_mark_revoked (key_id : String) (reg : List KeyRecord) :
    (revoke_mark key_id reg).map (fun k => k.revoked) =
      reg.map (fun k => k.revoked || (k.id == key_id)) := by
  induction reg with
  | nil => rfl
  | cons k rest ih =>
      simp only [revoke_mark, List.map_cons] at ih ⊢
      rw [ih]
      by_cases h : k.id = key_id <;> simp [h]

/-- The revocation loop does not change ids. -/
theorem revoke_mark_id (key_id : String) (reg : List KeyRecord) :
    (revoke_mark key_id reg).map (fun k => k.id) = reg.map (fun k => k.id) := by
  induction reg with
  | nil => rfl
  | cons k rest ih =>
      simp only [revoke_mark, List.map_cons] at ih ⊢
      rw [ih]
      by_cases h : k.id = key_id <;> simp [h]

/-- Marking twice equals marking once. -/
theorem revoke_mark_idem (key_id : String) (reg : List KeyRecord) :
    revoke_mark key_id (revoke_mark key_id reg) = revoke_mark key_id reg := by
  induction reg with
  | nil => rfl
  | cons k rest ih =>
      simp only [revoke_mark, List.map_cons] at ih ⊢
      rw [ih]
      by_cases h : k.id = key_id <;> simp [h]

/-- A match is found in a marked registry exactly when one is found in the
original registry. -/
theorem revoke_mark_any (key_id : String) (reg : List KeyRecord) :
    ((revoke_mark key_id reg).any fun k => k.id == key_id) =
      (reg.any fun k => k.id == key_id) := by
  induction reg with
  | nil => rfl
  | cons k rest ih =>
      simp only [revoke_mark, List.map_cons, List.any_cons] at ih ⊢
      rw [ih]
      by_cases h : k.id = key_id <;> simp [h]

/-- C5 counterexample: revoking never writes `revoked_at`. Starting from a
registry whose only record has `revoked_at = null`, `revoke_api_key` reports
success and uploads the record with `revoked = true` but with `revoked_at`
still `null` — not set to any timestamp, contrary to the claim. -/
theorem revoke_leaves_revoked_at_null :
    revoke_api_key (.response 200 [baseRec]) "k1" =
      (true, some [{ baseRec with revoked := true }]) ∧
    ({ baseRec with revoked := true } : KeyRecord).revoked_at = Option.none ∧
    baseRec.revoked_at = Option.none :=
  ⟨rfl, rfl, rfl⟩

/-- C5 amended: `revoke_api_key` returns `true` and uploads exactly when some
record matches the id; the uploaded registry sets `revoked = true` on every
matching record and touches nothing else — in particular every `revoked_at`
keeps its stored value (the code never writes it); re-revoking is idempotent:
the second call reports the same result and marks the same registry. -/
theorem revoke_api_key_spec (reg : List KeyRecord) (key_id : String) :
    (revoke_api_key (.response 200 reg) key_id).1 =
      (reg.any fun k => k.id == key_id) ∧
    (revoke_api_key (.response 200 reg) key_id).2 =
      (if reg.any (fun k => k.id == key_id) then some (revoke_mark key_id reg)
       else Option.none) ∧
    (revoke_mark key_id reg).map (fun k => k.revoked) =
      reg.map (fun k => k.revoked || (k.id == key_id)) ∧
    (revoke_mark key_id reg).map (fun k => k.revoked_at) =
      reg.map (fun k => k.revoked_at) ∧
    revoke_mark key_id (revoke_mark key_id reg) = revoke_mark key_id reg ∧
    (revoke_api_key (.response 200 (revoke_mark key_id reg)) key_id).1 =
      (revoke_api_key (.response 200 reg) key_id).1 :=
  ⟨rfl, rfl, revoke_mark_revoked key_id reg, revoke_mark_revoked_at key_id reg,
   revoke_mark_idem key_id reg, revoke_mark_any key_id reg⟩

/-- The quota loop writes `new_quota` on exactly the matching records. -/
theorem quota_mark_quota (key_id : String) (q : Int) (reg : List KeyRecord) :
    (quota_mark key_id q reg).map (fun k => k.quota_per_day) =
      reg.map (fun k => if k.id == key_id then some q else k.quota_per_day) := by
  induction reg with
  | nil => rfl
  | cons k rest ih =>
      simp only [quota_mark, List.map_cons] at ih ⊢
      rw [ih]
      by_cases h : k.id = key_id <;> simp [h]

/-- C7 counterexample: a non-positive quota is accepted, not rejected. With the
record present, `update_quota` with `new_quota = 0` reports success and uploads
the record with `quota_per_day = 0`, and the admin route `set_quota` returns
success for the same body (its only validations are missing-field checks). -/
theorem update_quota_accepts_zero :
    update_quota (.response 200 [baseRec]) "k1" 0 =
      (true, some [{ baseRec with quota_per_day := some 0 }]) ∧
    set_quota (.response 200 [baseRec]) (some "k1") (some 0) = .ok () ∧
    update_quota (.response 200 [baseRec]) "k1" (-5) =
      (true, some [{ baseRec with quota_per_day := some (-5) }]) :=
  ⟨rfl, rfl, rfl⟩

/-- C7 amended: `update_quota` sets `quota_per_day` to the given value — any
integer, zero and negatives included, with no `InvalidArgument` rejection — on
every matching record, returns `true` and uploads exactly when a record
matches, and reports `false` (mapped to 404 NotFound by the route) when the id
is absent. -/
theorem update_quota_spec (reg : List KeyRecord) (key_id : String) (q : Int) :
    (update_quota (.response 200 reg) key_id q).1 =
      (reg.any fun k => k.id == key_id) ∧
    (update_quota (.response 200 reg) key_id q).2 =
      (if reg.any (fun k => k.id == key_id) then some (quota_mark key_id q reg)
       else Option.none) ∧
    (quota_mark key_id q reg).map (fun k => k.quota_per_day) =
      reg.map (fun k => if k.id == key_id then some q else k.quota_per_day) :=
  ⟨rfl, rfl, quota_mark_quota key_id q reg⟩

/-- C10: when no record matches the id, `revoke_api_key` and `update_quota`
report failure and perform **no** upload — the persisted registry is untouched
on the NotFound path. -/
theorem notfound_mutations_do_not_upload (reg : List KeyRecord)
    (key_id : String) (q : Int)
    (habsent : reg.all (fun k => k.id != key_id) = true) :
    revoke_api_key (.response 200 reg) key_id = (false, Option.none) ∧
    update_quota (.response 200 reg) key_id q = (false, Option.none) := by
  have hany : (reg.any fun k => k.id == key_id) = false := by
    rw [List.any_eq_false]
    intro k hk
    have := List.all_eq_true.mp habsent k hk
    simpa using this
  constructor <;>
    simp [revoke_api_key, update_quota, download_api_keys_from_cloudinary, hany]

/-- Witness for C10: an id absent from a one-record registry. -/
theorem notfound_mutations_witness :
    ([baseRec].all (fun k => k.id != "missing") = true) ∧
    (revoke_api_key (.response 200 [baseRec]) "missing" = (false, Option.none) ∧
     update_quota (.response 200 [baseRec]) "missing" 7 = (false, Option.none)) :=
  ⟨by decide, notfound_mutations_do_not_upload [baseRec] "missing" 7 (by decide)⟩

/-- When every record before `r` misses the fingerprint and `r` matches it but
is revoked, the resolution loop raises the revocation error at `r` without
looking further. -/
theorem track_find_stops_at_revoked (parseIso : String → Option Int) (now : Int)
    (hashed : String) (pre : List KeyRecord) (r : KeyRecord)
    (post : List KeyRecord)
    (hpre : pre.all (fun k => k.api_key_hash != hashed) = true)
    (hmatch : r.api_key_hash = hashed) (hrev : r.revoked = true) :
    track_find parseIso now hashed (pre ++ r :: post) =
      .error (.http 403 "API key has been revoked.") := by
  induction pre with
  | nil => simp [track_find, hmatch, hrev]
  | cons k rest ih =>
      have hk : ¬(k.api_key_hash = hashed) := by
        have := List.all_eq_true.mp hpre k (by simp)
        simpa using this
      have hrest : rest.all (fun k => k.api_key_hash != hashed) = true := by
        rw [List.all_eq_true]
        intro x hx
        exact List.all_eq_true.mp hpre x (by simp [hx])
      simp [track_find, hk, ih hrest]

set_option maxRecDepth 100000 in
/-- C6 counterexample: with a revoked record and an active record sharing the
fingerprint of `"raw6"`, in that order, AuthGate rejects the presented valid
credential with the revocation error instead of resolving to the active
record — even though the non-revoked match exists (as `find_active_api_key`,
the unused Firestore query, shows). -/
theorem revoked_duplicate_shadows_active_record :
    track_and_get_api_key (fun _ => Option.none) 0 "2025-06-22"
      "2025-06-22T10:00:00" (some "raw6")
      (.response 200 [c6_revoked, c6_active]) =
      .error (.http 403 "API key has been revoked.") ∧
    find_active_api_key (hash_api_key "raw6") [c6_revoked, c6_active] =
      some c6_active :=
  ⟨rfl, rfl⟩

/-- C6 amended: AuthGate resolution takes the **first** record whose
fingerprint matches, regardless of revocation: whenever the first match in
collection order is revoked, the call fails with the revocation error, no
matter what records follow. Only the separate Firestore-backed query
`find_active_api_key` filters to non-revoked matches. -/
theorem first_match_wins_even_if_revoked (parseIso : String → Option Int)
    (now : Int) (todayStr nowIso key : String) (pre : List KeyRecord)
    (r : KeyRecord) (post : List KeyRecord) (hkey : key ≠ "")
    (hpre : pre.all (fun k => k.api_key_hash != hash_api_key key) = true)
    (hmatch : r.api_key_hash = hash_api_key key) (hrev : r.revoked = true) :
    track_and_get_api_key parseIso now todayStr nowIso (some key)
      (.response 200 (pre ++ r :: post)) =
      .error (.http 403 "API key has been revoked.") := by
  unfold track_and_get_api_key
  simp only [Option.getD, if_neg hkey]
  rw [show download_api_keys_from_cloudinary (.response 200 (pre ++ r :: post)) =
        pre ++ r :: post from rfl]
  rw [track_find_stops_at_revoked parseIso now (hash_api_key key) pre r post
        hpre hmatch hrev]

/-- Witness for C6 at an empty prefix and one trailing active duplicate. -/
theorem first_match_wins_witness :
    ("raw6" : String) ≠ "" ∧
    ([] : List KeyRecord).all
      (fun k => k.api_key_hash != hash_api_key "raw6") = true ∧
    c6w_revoked.api_key_hash = hash_api_key "raw6" ∧
    c6w_revoked.revoked = true ∧
    track_and_get_api_key (fun _ => Option.none) 0 "2025-06-22"
      "2025-06-22T10:00:00" (some "raw6")
      (.response 200 ([] ++ c6w_revoked :: [c6w_active])) =
      .error (.http 403 "API key has been revoked.") :=
  ⟨by decide, rfl, rfl, rfl,
   first_match_wins_even_if_revoked (fun _ => Option.none) 0 "2025-06-22"
     "2025-06-22T10:00:00" "raw6" [] c6w_revoked [c6w_active]
     (by decide) rfl rfl rfl⟩

/-- A string of length zero is the empty string. -/
theorem str_eq_empty_of_length (s : String) (h : s.length = 0) : s = "" := by
  cases s with
  | mk l =>
      cases l with
      | nil => rfl
      | cons c cs => simp [String.length] at h

/-- Non-emptiness is positivity of the length. -/
theorem str_ne_empty_iff (s : String) : s ≠ "" ↔ s.length ≠ 0 :=
  ⟨fun h hl => h (str_eq_empty_of_length s hl),
   fun h he => h (by rw [he]; rfl)⟩

/-- A one-character string has length one. -/
theorem singleCharLength (c : Char) : (⟨[c]⟩ : String).length = 1 := rfl

/-- With non-zero fuel, the decimal rendering has at least one character. -/
theorem natStrAux_length_pos (fuel n : Nat) :
    0 < (natStrAux (fuel + 1) n).length := by
  unfold natStrAux
  by_cases h : n < 10
  · rw [if_pos h, singleCharLength]
    omega
  · rw [if_neg h, strLength_append, singleCharLength]
    omega

/-- The decimal rendering of a natural number is never empty. -/
theorem natStr_ne_empty (n : Nat) : natStr n ≠ "" := by
  rw [str_ne_empty_iff]
  have := natStrAux_length_pos n n
  unfold natStr
  omega

/-- Python `str(value)` of a truthy scalar is a non-empty string. -/
theorem pyStr_ne_empty (v : PyVal) (h : v.truthy = true) : v.pyStr ≠ "" := by
  cases v with
  | none => simp [PyVal.truthy] at h
  | bool b =>
      cases b with
      | false => simp [PyVal.truthy] at h
      | true => simp [PyVal.pyStr]
  | int n =>
      by_cases hn : n < 0
      · simp only [PyVal.pyStr, if_pos hn]
        rw [str_ne_empty_iff, strLength_append]
        have hp := natStrAux_length_pos n.natAbs n.natAbs
        have h1 : ("-" : String).length = 1 := rfl
        unfold natStr
        omega
      · simp only [PyVal.pyStr, if_neg hn]
        exact natStr_ne_empty _
  | str s =>
      simp only [PyVal.pyStr]
      simpa [PyVal.truthy] using h

/-- Every field the listing loop repairs really is repaired. -/
theorem normalizeKey_spec (now : String) (k : KeyRecord) (hnow : now ≠ "") :
    (normalizeKey now k).quota_per_day =
      some (k.quota_per_day.getD DEFAULT_QUOTA_PER_DAY) ∧
    (normalizeKey now k).daily_usage = some (k.daily_usage.getD []) ∧
    isNonemptyStr (normalizeKey now k).created_at = true := by
  obtain ⟨id, cn, ah, ca, rv, ra, lu, pm, qp, du, ex⟩ := k
  cases qp <;> cases du <;>
    cases ca with
    | none => simp [normalizeKey, PyVal.truthy, isNonemptyStr, hnow]
    | bool b =>
        cases b <;>
          simp [normalizeKey, PyVal.truthy, PyVal.pyStr, isNonemptyStr, hnow]
    | int n =>
        by_cases hn : n = 0
        · simp [normalizeKey, PyVal.truthy, isNonemptyStr, hn, hnow]
        · have hne := pyStr_ne_empty (.int n) (by simp [PyVal.truthy, hn])
          simp [normalizeKey, PyVal.truthy, isNonemptyStr, hn, hne]
    | str s =>
        by_cases hs : s = ""
        · simp [normalizeKey, PyVal.truthy, isNonemptyStr, hs, hnow]
        · simp [normalizeKey, PyVal.truthy, isNonemptyStr, hs]

/-- C9: every record returned by `get_api_keys` comes from the stored record
by the normalization that forces a defined `quota_per_day` (the stored value,
or 50 when the field is absent), a defined `daily_usage` (the stored mapping,
or empty when absent), and a non-empty string `created_at` — whatever the
stored registry contained. -/
theorem get_api_keys_normalizes (fetch : FetchOutcome) (now : String)
    (k : KeyRecord) (hnow : now ≠ "") :
    get_api_keys fetch now =
      (download_api_keys_from_cloudinary fetch).map (normalizeKey now) ∧
    (normalizeKey now k).quota_per_day =
      some (k.quota_per_day.getD DEFAULT_QUOTA_PER_DAY) ∧
    (normalizeKey now k).daily_usage = some (k.daily_usage.getD []) ∧
    isNonemptyStr (normalizeKey now k).created_at = true :=
  ⟨rfl, normalizeKey_spec now k hnow⟩

/-- Witness for C9: a stored record missing `quota_per_day` and `daily_usage`
whose `created_at` is the non-string number 7. -/
theorem get_api_keys_normalizes_witness :
    ("2025-06-22T10:00:00" : String) ≠ "" ∧
    (get_api_keys (.response 200 [c9_rec]) "2025-06-22T10:00:00" =
      (download_api_keys_from_cloudinary (.response 200 [c9_rec])).map
        (normalizeKey "2025-06-22T10:00:00") ∧
    (normalizeKey "2025-06-22T10:00:00" c9_rec).quota_per_day =
      some (c9_rec.quota_per_day.getD DEFAULT_QUOTA_PER_DAY) ∧
    (normalizeKey "2025-06-22T10:00:00" c9_rec).daily_usage =
      some (c9_rec.daily_usage.getD []) ∧
    isNonemptyStr (normalizeKey "2025-06-22T10:00:00" c9_rec).created_at =
      true) :=
  ⟨by decide,
   get_api_keys_normalizes (.response 200 [c9_rec]) "2025-06-22T10:00:00"
     c9_rec (by decide)⟩

set_option maxRecDepth 1000000 in
/-- C1: quota is never enforced. For the key with `quota_per_day = 3`, the
3rd sequential AuthGate call of the day succeeds with the count at the quota,
and the 4th call **also succeeds**, driving `daily_usage` to 4 — there is no
quota comparison anywhere in `track_and_get_api_key`, so no `QuotaExceeded`
(429) is possible and the counter exceeds the quota. The only quota-checking
code, `check_and_update_quota`, raises `NameError` on every call (`date` and
`firestore` are unbound in the module), so the `verify_api_key` middleware
path fails the same way instead of returning 429 or enforcing the cap. -/
theorem quota_never_enforced :
    c1_rec.quota_per_day = some 3 ∧
    c1_after 2 = .ok (c1_usage 3, [c1_usage 3]) ∧
    c1_after 3 = .ok (c1_usage 4, [c1_usage 4]) ∧
    check_and_update_quota c1_rec =
      .error (.nameError "NameError: date is not defined") ∧
    verify_api_key (some "raw1") [c1_rec] =
      .error (.nameError "NameError: date is not defined") :=
  ⟨rfl, rfl, rfl, rfl, rfl⟩

set_option maxRecDepth 1000000 in
/-- C2: an expired key is **accepted**, not rejected. The expiry test inside
the resolution loop does fire — the `try` body raises the 403
"API key has expired." exception for the stored past timestamp — but the
surrounding `except Exception` swallows that very exception, so the call
succeeds, increments the usage counter, and returns the record. A malformed
(unparseable) `expires_at` likewise leaves validation running as if the key
had no expiry. -/
theorem expired_key_accepted :
    expiry_try (fun _ => some 0) 100 "2020-01-01T00:00:00Z" =
      .error (.http 403 "API key has expired.") ∧
    track_and_get_api_key (fun _ => some 0) 100 "2025-06-22"
      "2025-06-22T10:00:00" (some "raw2") (.response 200 [c2_rec]) =
      .ok (c2_usage, [c2_usage]) ∧
    track_and_get_api_key (fun _ => Option.none) 100 "2025-06-22"
      "2025-06-22T10:00:00" (some "raw2") (.response 200 [c2_rec]) =
      .ok (c2_usage, [c2_usage]) :=
  ⟨rfl, rfl, rfl⟩

end PlantSaathi
